import Mathlib

/-!
Verification of the MindSparkle Document Intelligence service
(`cloud-run/document-intelligence/main.py`) against its specification.

The Python source is shallowly embedded: every extractor and helper is a
total Lean function over explicit data types.  Outcomes of network / library
calls (Document AI client, PyMuPDF container opening, python-pptx /
python-docx parsing, the Vision / Vertex / OpenAI recognition clients) are
supplied as explicit `Except` / `Option` inputs of the embedding, so the
branching behaviour of the Python code on every possible outcome is modelled
faithfully.  Python floats used for confidences are modelled as rationals
(the source only ever compares and averages literal decimal constants);
Python strings as Lean `String` (both sequences of unicode code points).
-/

namespace DocIntel

/-- `'\n\n'.join(...)`-style joining: Python `sep.join(parts)`. -/
def joinSep (sep : String) : List String → String
  | [] => ""
  | [t] => t
  | t :: ts => t ++ sep ++ joinSep sep ts

/-- Python `str.lower()` (code-point-wise lowering; the source only lowers
ASCII filenames). -/
def pyLower (s : String) : String := (s.toList.map Char.toLower).asString

/-- Python `str.strip()`: drop whitespace from both ends. -/
def pyStrip (s : String) : String :=
  (((s.toList.dropWhile Char.isWhitespace).reverse.dropWhile
      Char.isWhitespace).reverse).asString

/-- Does `pat` occur at the start of `s`? (helper for the substring test). -/
def startsWithL : List Char → List Char → Bool
  | [], _ => true
  | _ :: _, [] => false
  | p :: ps, c :: cs => p = c && startsWithL ps cs

/-- Does `pat` occur contiguously anywhere in `s`? -/
def occursIn (pat : List Char) : List Char → Bool
  | [] => startsWithL pat []
  | c :: cs => startsWithL pat (c :: cs) || occursIn pat cs

/-- Python `pat in s` substring test. -/
def substrIn (s pat : String) : Bool := occursIn pat.toList s.toList

/-- Python `s.startswith(pat)`. -/
def startsWithStr (s pat : String) : Bool := startsWithL pat.toList s.toList

/-- Split a character list on a separator character (Python `str.split(sep)`
semantics: `n` separators yield `n+1` parts, empty parts kept). -/
def splitChar (sep : Char) : List Char → List (List Char)
  | [] => [[]]
  | c :: cs =>
    let r := splitChar sep cs
    if c = sep then [] :: r
    else
      match r with
      | [] => [[c]]
      | g :: gs => (c :: g) :: gs

/-- Split a character list at every character satisfying `p` (empty parts
kept; helper for Python `str.split()`). -/
def splitWhen (p : Char → Bool) : List Char → List (List Char)
  | [] => [[]]
  | c :: cs =>
    let r := splitWhen p cs
    if p c then [] :: r
    else
      match r with
      | [] => [[c]]
      | g :: gs => (c :: g) :: gs

/-- Python slice `s[a:b]` over code points (indices clamp at the ends). -/
def sliceStr (s : String) (a b : Nat) : String :=
  (((s.toList).drop a).take (b - a)).asString

/-- Python `str.split()` with no separator: whitespace-delimited tokens,
no empty tokens. -/
def pyWords (s : String) : List String :=
  ((splitWhen Char.isWhitespace s.toList).map List.asString).filter
    (fun w => w ≠ "")

/-- The block `type` tags produced by the extractors. -/
inductive BlockType where
  | paragraph
  | heading
  | text
  | table
  | ocr
  | page_ocr
  | image_ocr
  | speaker_notes
deriving Repr, DecidableEq

/-- A text block dict `{'text', 'page', 'confidence', 'type'}`. -/
structure TextBlock where
  text : String
  page : Nat
  confidence : ℚ
  type : BlockType
deriving Repr, DecidableEq

/-- A table dict `{'rows', 'page', 'confidence'}`. -/
structure Table where
  rows : List (List String)
  page : Nat
  confidence : ℚ
deriving Repr, DecidableEq

/-- An entry of the `images` list: either an OCR record
(`{'page': n, 'ocr_text': t}` in PPTX, `{'ocr_text': t}` in DOCX — the page
is absent there, hence the `Option`), or a PDF page-thumbnail record
`{'page', 'type': 'page_thumbnail', 'data_url', 'caption'}`. -/
inductive ImageArtifact where
  | ocrRecord (page : Option Nat) (ocr_text : String)
  | pageThumbnail (page : Nat) (data_url : String) (caption : String)
deriving Repr, DecidableEq

/-- The intermediate extraction-result dict every extractor returns. -/
structure ExtractionResult where
  method : String
  confidence : ℚ
  text_blocks : List TextBlock
  tables : List Table
  images : List ImageArtifact
  page_count : Nat
  raw_text : String
deriving Repr, DecidableEq

/-- `canonical['extraction']`. -/
structure ExtractionMeta where
  method : String
  confidence : ℚ
  timestamp : String
deriving Repr, DecidableEq

/-- `canonical['structure']` (the Python key `structure` is a Lean keyword,
hence the field name `doc_structure` on `CanonicalDocument`). -/
structure DocStructure where
  page_count : Nat
  tables : List Table
  images : List ImageArtifact
deriving Repr, DecidableEq

/-- `canonical['content']`. -/
structure DocContent where
  text_blocks : List TextBlock
  full_text : String
deriving Repr, DecidableEq

/-- `canonical['stats']`. -/
structure DocStats where
  total_chars : Nat
  total_words : Nat
  total_blocks : Nat
  total_tables : Nat
  total_images : Nat
deriving Repr, DecidableEq

/-- The canonical document model (`build_canonical_model`'s return dict). -/
structure CanonicalDocument where
  id : String
  filename : String
  file_type : String
  file_size : Nat
  extraction : ExtractionMeta
  doc_structure : DocStructure
  content : DocContent
  stats : DocStats
deriving Repr, DecidableEq

/-- `build_canonical_model(result, filename, file_type, file_size, request_id)`.
The wall-clock reading `time.strftime(...)` is the explicit `timestamp`
argument; everything else is computed exactly as in the source. -/
def build_canonical_model (result : ExtractionResult) (filename : String)
    (file_type : String) (file_size : Nat) (request_id : String)
    (timestamp : String) : CanonicalDocument :=
  let text_blocks := result.text_blocks
  let full_text := result.raw_text
  { id := request_id
    filename := filename
    file_type := file_type
    file_size := file_size
    extraction :=
      { method := result.method
        confidence := result.confidence
        timestamp := timestamp }
    doc_structure :=
      { page_count := result.page_count
        tables := result.tables
        images := result.images }
    content :=
      { text_blocks := text_blocks
        full_text := full_text }
    stats :=
      { total_chars := full_text.length
        total_words := (pyWords full_text).length
        total_blocks := text_blocks.length
        total_tables := result.tables.length
        total_images := result.images.length } }

/-- `filename.lower().split('.')[-1] if '.' in filename else ''`. -/
def extOf (filename : String) : String :=
  if substrIn filename "." then
    ((splitChar '.' (pyLower filename).toList).getLastD []).asString
  else ""

/-- `'pdf' in mimetype`. -/
def mimePdf (mimetype : String) : Bool := substrIn mimetype "pdf"

/-- `'presentation' in mimetype or 'powerpoint' in mimetype`. -/
def mimePptx (mimetype : String) : Bool :=
  substrIn mimetype "presentation" || substrIn mimetype "powerpoint"

/-- `'word' in mimetype or 'document' in mimetype`. -/
def mimeDocx (mimetype : String) : Bool :=
  substrIn mimetype "word" || substrIn mimetype "document"

/-- `'text/plain' in mimetype`. -/
def mimeTxt (mimetype : String) : Bool := substrIn mimetype "text/plain"

/-- `detect_file_type(filename, mimetype)`. -/
def detect_file_type (filename mimetype : String) : String :=
  let ext := extOf filename
  if ext = "pdf" ∨ mimePdf mimetype then "pdf"
  else if ext = "pptx" ∨ ext = "ppt" ∨ mimePptx mimetype then "pptx"
  else if ext = "docx" ∨ ext = "doc" ∨ mimeDocx mimetype then "docx"
  else if ext = "txt" ∨ mimeTxt mimetype then "txt"
  else if ext ∈ ["png", "jpg", "jpeg", "webp", "gif"] then "image"
  else "unknown"

/-- `extract_txt(file_buffer, request_id)`.  The encoding cascade
(utf-8 → latin-1 → cp1252 → utf-8 ignoring errors) always yields some string
and never raises — latin-1 decodes every byte sequence — so the embedding
takes the decoded text directly. -/
def extract_txt (text : String) : ExtractionResult :=
  { method := "direct_read"
    confidence := 1
    text_blocks := [{ text := text, page := 1, confidence := 1, type := .text }]
    tables := []
    images := []
    page_count := 1
    raw_text := text }

/-- Double-newline join of the blocks' texts: `'\n\n'.join(b['text'] for b in blocks)`. -/
def joinTexts (blocks : List TextBlock) : String :=
  joinSep "\n\n" (blocks.map TextBlock.text)

/-- A `text_segments` entry of a Document AI layout's text anchor.
(`int(segment.start_index) if segment.start_index else 0` is the identity on
naturals, since the falsy case is exactly `0`.) -/
structure DocAISegment where
  start_index : Nat
  end_index : Nat
deriving Repr, DecidableEq

/-- A Document AI layout: its anchor segments and reported confidence. -/
structure DocAILayout where
  segments : List DocAISegment
  confidence : ℚ
deriving Repr, DecidableEq

/-- A Document AI paragraph (carries just its layout). -/
structure DocAIParagraph where
  layout : DocAILayout
deriving Repr, DecidableEq

/-- A Document AI table row: each cell carries a layout. -/
structure DocAIRow where
  cells : List DocAILayout
deriving Repr, DecidableEq

/-- A Document AI table: header rows and body rows. -/
structure DocAITable where
  header_rows : List DocAIRow
  body_rows : List DocAIRow
deriving Repr, DecidableEq

/-- A page of a Document AI response. -/
structure DocAIPage where
  page_number : Nat
  paragraphs : List DocAIParagraph
  tables : List DocAITable
deriving Repr, DecidableEq

/-- The `result.document` of a successful Document AI `process_document`
call: its pages and the full `document.text`. -/
structure DocAIDocument where
  pages : List DocAIPage
  text : String
deriving Repr, DecidableEq

/-- `get_text_from_layout(layout, full_text)`: concatenate the anchor
segments' slices of the full text, then strip. -/
def get_text_from_layout (layout : DocAILayout) (full_text : String) : String :=
  pyStrip (String.join (layout.segments.map
    (fun s => sliceStr full_text s.start_index s.end_index)))

/-- `extract_pdf_with_document_ai(file_buffer, request_id)`, applied to the
document returned by the Document AI client (the network call itself is the
`Except` input of `PdfEnv.docai`).  Note `raw_text` is set to
`document.text`, not to a join of the blocks, and a paragraph's zero (falsy)
confidence is replaced by `0.9`. -/
def extract_pdf_with_document_ai (document : DocAIDocument) : ExtractionResult :=
  let text_blocks := List.flatten (document.pages.map (fun page =>
    page.paragraphs.map (fun paragraph =>
      let text := get_text_from_layout paragraph.layout document.text
      let confidence :=
        if paragraph.layout.confidence ≠ 0 then paragraph.layout.confidence
        else 9/10
      ({ text := text, page := page.page_number, confidence := confidence,
         type := .paragraph } : TextBlock))))
  let tables := List.flatten (document.pages.map (fun page =>
    page.tables.map (fun table =>
      let table_data := (table.header_rows ++ table.body_rows).map (fun row =>
        row.cells.map (fun cell => get_text_from_layout cell document.text))
      ({ rows := table_data, page := page.page_number,
         confidence := 9/10 } : Table))))
  let raw_text := document.text
  let avg_confidence : ℚ :=
    if text_blocks ≠ [] then
      ((text_blocks.map TextBlock.confidence).sum) / text_blocks.length
    else 9/10
  { method := "document_ai"
    confidence := avg_confidence
    text_blocks := text_blocks
    tables := tables
    images := []
    page_count := document.pages.length
    raw_text := raw_text }

/-- `MAX_PAGE_THUMBNAILS` (environment-configurable, default `25`). -/
def MAX_PAGE_THUMBNAILS : Nat := 25

/-- One `page.get_images()` entry of a PDF page: whether the pixmap
extraction succeeds (the per-image `try` block), and an abstract identifier
for the resulting image bytes. -/
structure PdfImage where
  decode_ok : Bool
  data : Nat
deriving Repr, DecidableEq

/-- A page of an opened PyMuPDF document: its text layer, its embedded
images, the outcome of `_render_page_thumbnail_data_url` (`none` models its
failure path), and an abstract identifier for the page's 2x full-page
pixmap bytes. -/
structure PdfPage where
  page_text : String
  images : List PdfImage
  thumb : Option String
  fullpage_img : Nat
deriving Repr, DecidableEq

/-- The mutable locals of the PyMuPDF extraction loop, plus a count of
recognition-fallback (`ocr_image`) invocations. -/
structure PdfLocalState where
  text_blocks : List TextBlock
  images : List ImageArtifact
  thumbnails_added : Nat
  ocr_calls : Nat
deriving Repr, DecidableEq

/-- The per-image OCR loop of a sparse-text page (`for img_index, img in
enumerate(page.get_images())`): a failed pixmap decode is skipped silently;
otherwise `ocr_image` is called and truthy text becomes an `ocr` block. -/
def pdfPageImagesOcr (ocr : Nat → Option String) (pageNum : Nat)
    (st : PdfLocalState) : List PdfImage → PdfLocalState
  | [] => st
  | img :: rest =>
    let st2 :=
      if img.decode_ok then
        let st1 := { st with ocr_calls := st.ocr_calls + 1 }
        match ocr img.data with
        | some t =>
          if t ≠ "" then
            { st1 with text_blocks := st1.text_blocks ++
                [{ text := t, page := pageNum, confidence := 7/10, type := .ocr }] }
          else st1
        | none => st1
      else st
    pdfPageImagesOcr ocr pageNum st2 rest

/-- `has_page_text`: does any accumulated block of this page have at least
20 characters of stripped text? -/
def pageHasText (blocks : List TextBlock) (pageNum : Nat) : Bool :=
  blocks.any (fun b => decide (b.page = pageNum ∧ 20 ≤ (pyStrip b.text).length))

/-- The text-layer step of one page: a stripped nonempty text layer
becomes a `paragraph` block with confidence 0.85. -/
def pdfPageTextStep (st : PdfLocalState) (pageNum : Nat) (page : PdfPage) :
    PdfLocalState :=
  let pt := pyStrip page.page_text
  if pt ≠ "" then
    { st with text_blocks := st.text_blocks ++
        [{ text := pt, page := pageNum, confidence := 85/100, type := .paragraph }] }
  else st

/-- The sparse-text per-image OCR step of one page (`if
len(page_text.strip()) < 100`). -/
def pdfPageOcrStep (ocr : Nat → Option String) (st : PdfLocalState)
    (pageNum : Nat) (page : PdfPage) : PdfLocalState :=
  if (pyStrip page.page_text).length < 100 then
    pdfPageImagesOcr ocr pageNum st page.images
  else st

/-- The capped thumbnail step of one page: only while fewer than
`maxThumbs` thumbnails have been added, and only when no accumulated block
of this page has at least 20 characters, a successfully rendered thumbnail
is appended and counted. -/
def pdfPageThumbStep (maxThumbs : Nat) (st : PdfLocalState) (pageNum : Nat)
    (page : PdfPage) : PdfLocalState :=
  if st.thumbnails_added < maxThumbs then
    if pageHasText st.text_blocks pageNum then st
    else
      match page.thumb with
      | some data_url =>
        { st with
            images := st.images ++
              [.pageThumbnail pageNum data_url "Page thumbnail (no text extracted)"]
            thumbnails_added := st.thumbnails_added + 1 }
      | none => st
  else st

/-- One iteration of `for page_num, page in enumerate(doc)`: text-layer
block, sparse-text per-image OCR, then the capped thumbnail fallback.
`pageNum` is the 1-based `page_num + 1` of the source. -/
def pdfProcessPage (ocr : Nat → Option String) (maxThumbs : Nat)
    (st : PdfLocalState) (pageNum : Nat) (page : PdfPage) : PdfLocalState :=
  pdfPageThumbStep maxThumbs
    (pdfPageOcrStep ocr (pdfPageTextStep st pageNum page) pageNum page)
    pageNum page

/-- The whole page loop, pages numbered from 1. -/
def pdfPagesGo (ocr : Nat → Option String) (maxThumbs : Nat)
    (st : PdfLocalState) (pageNum : Nat) : List PdfPage → PdfLocalState
  | [] => st
  | p :: rest => pdfPagesGo ocr maxThumbs (pdfProcessPage ocr maxThumbs st pageNum p) (pageNum + 1) rest

/-- The full-page-OCR fallback loop (`if len(raw_text) < 100` stage): every
page's 2x pixmap is sent to `ocr_image`; truthy text becomes a `page_ocr`
block with confidence `0.6`. -/
def pdfFullPageOcr (ocr : Nat → Option String) (st : PdfLocalState)
    (pageNum : Nat) : List PdfPage → PdfLocalState
  | [] => st
  | p :: rest =>
    let st1 := { st with ocr_calls := st.ocr_calls + 1 }
    let st2 :=
      match ocr p.fullpage_img with
      | some t =>
        if t ≠ "" then
          { st1 with text_blocks := st1.text_blocks ++
              [{ text := t, page := pageNum, confidence := 6/10, type := .page_ocr }] }
        else st1
      | none => st1
    pdfFullPageOcr ocr st2 (pageNum + 1) rest

/-- The inputs `extract_pdf` draws on: whether `DOCUMENT_AI_PROCESSOR_ID` is
set, the outcome of the Document AI client call (`Except.error` models the
raised exception that line 220 catches), the outcome of
`fitz.open(stream=..., filetype="pdf")` (`Except.error` models the raised
exception the outer handler catches), and the recognition fallback as an
image-bytes → recognized-text oracle (`ocr_image`'s input/output behaviour;
`ocr_image` itself is total and modelled separately). -/
structure PdfEnv where
  docai_processor_id : Bool
  docai : Except String DocAIDocument
  pages : Except String (List PdfPage)
  ocr : Nat → Option String

/-- `extract_pdf`'s return value, paired with the number of
recognition-fallback (`ocr_image`) calls it made. -/
structure PdfOutcome where
  result : ExtractionResult
  ocr_calls : Nat
deriving Repr, DecidableEq

/-- Stage 1 of `extract_pdf`: the Document AI attempt.  `some r` (the
confidence-gated early return at line 217) requires the processor id to be
configured, the client call to succeed, and `r.confidence >= 0.7`; every
other outcome (unconfigured, exception, low confidence) is `none` and falls
through to the PyMuPDF stage. -/
def docaiAttempt (env : PdfEnv) : Option ExtractionResult :=
  if env.docai_processor_id then
    match env.docai with
    | .ok d =>
      let r := extract_pdf_with_document_ai d
      if (7 : ℚ)/10 ≤ r.confidence then some r else none
    | .error _ => none
  else none

/-- The PyMuPDF stages of `extract_pdf` (stages 2 and 3): if `fitz.open`
raises, the except handler at line 310 leaves every local at its initial
value and the function returns the empty result (`method` `'unknown'`,
confidence `0`); otherwise the page loop runs, then the full-page-OCR stage
if the joined raw text is under 100 characters. -/
def pdfLocalExtract (env : PdfEnv) : PdfOutcome :=
  match env.pages with
  | .error _ =>
    { result :=
        { method := "unknown", confidence := 0, text_blocks := [], tables := []
          images := [], page_count := 1, raw_text := "" }
      ocr_calls := 0 }
  | .ok pages =>
    let st := pdfPagesGo env.ocr MAX_PAGE_THUMBNAILS
      { text_blocks := [], images := [], thumbnails_added := 0, ocr_calls := 0 } 1 pages
    let page_count := if pages.length = 0 then 1 else pages.length
    let raw_text := joinTexts st.text_blocks
    if raw_text.length < 100 then
      let st2 := pdfFullPageOcr env.ocr st 1 pages
      { result :=
          { method := "pymupdf_ocr", confidence := 6/10
            text_blocks := st2.text_blocks, tables := [], images := st2.images
            page_count := page_count, raw_text := joinTexts st2.text_blocks }
        ocr_calls := st2.ocr_calls }
    else
      { result :=
          { method := "pymupdf", confidence := if raw_text ≠ "" then 85/100 else 0
            text_blocks := st.text_blocks, tables := [], images := st.images
            page_count := page_count, raw_text := raw_text }
        ocr_calls := st.ocr_calls }

/-- `extract_pdf(file_buffer, request_id)`: Document AI with confidence
gate, else the PyMuPDF stages.  Note it never raises: every failure path is
absorbed internally. -/
def extract_pdf (env : PdfEnv) : PdfOutcome :=
  match docaiAttempt env with
  | some r => { result := r, ocr_calls := 0 }
  | none => pdfLocalExtract env

/-- The inputs `ocr_image` draws on for one image: the outcome of the
Vision `text_detection` call (`Except.error` models a raised exception,
`Except.ok` carries the `text_annotations` descriptions),
`VERTEX_GEMINI_OCR_ENABLED`, the outcome of `ocr_with_vertex_gemini`
(`Except.error` a raised exception, `.ok none` its `text or None` for empty
text), `OPENAI_API_KEY` being set, and the outcome of `ocr_with_openai`
(`.ok none` models its `return None` on a non-200 status). -/
structure OcrEnv where
  vision : Except String (List String)
  vertex_enabled : Bool
  vertex : Except String (Option String)
  openai_key : Bool
  openai : Except String (Option String)

/-- What one `ocr_image` call returned and which fallback tiers it
invoked (the Vision tier is always invoked first). -/
structure OcrTrace where
  result : Option String
  vertex_called : Bool
  openai_called : Bool
deriving Repr, DecidableEq

/-- The OpenAI tier of `ocr_image`: attempted only if `OPENAI_API_KEY` is
set; its return value is passed through as `ocr_image`'s own return, and a
raised exception is absorbed, falling to `return None`. -/
def openaiStage (env : OcrEnv) (vertexCalled : Bool) :
    Option String × Bool × Bool :=
  if env.openai_key then
    match env.openai with
    | .ok r => (r, vertexCalled, true)
    | .error _ => (none, vertexCalled, true)
  else (none, vertexCalled, false)

/-- The Vertex Gemini tier followed by the OpenAI tier (the common
continuation of both the "Vision returned no text" branch and the "Vision
raised" branch of `ocr_image`): Vertex is attempted only if enabled, its
truthy text is returned, and its exception / empty result falls through. -/
def geminiThenOpenai (env : OcrEnv) : Option String × Bool × Bool :=
  if env.vertex_enabled then
    match env.vertex with
    | .ok (some t) => if t ≠ "" then (some t, true, false) else openaiStage env true
    | .ok none => openaiStage env true
    | .error _ => openaiStage env true
  else openaiStage env false

/-- `ocr_image(image_data, request_id)`: Vision first — a present first
annotation's stripped description is returned at once — otherwise (no
annotations, or Vision raised) the Vertex-then-OpenAI cascade runs.  The
function is total: no tier's failure escapes, and `none` is its normal
terminal outcome. -/
def ocr_image (env : OcrEnv) : OcrTrace :=
  match env.vision with
  | .ok (d :: _) => { result := some (pyStrip d), vertex_called := false, openai_called := false }
  | .ok [] =>
    let (r, v, o) := geminiThenOpenai env
    { result := r, vertex_called := v, openai_called := o }
  | .error _ =>
    let (r, v, o) := geminiThenOpenai env
    { result := r, vertex_called := v, openai_called := o }

/-- A PPTX shape, as the three independent attribute tests of the source
see it: its text frame's paragraph texts if `shape.has_text_frame`, its
table's cell texts if `shape.has_table`, and its image blob (abstract id)
if `hasattr(shape, 'image')`. -/
structure PptxShape where
  text_frame : Option (List String)
  table : Option (List (List String))
  image : Option Nat

/-- A PPTX slide: its shapes, and the notes text if `slide.has_notes_slide`
and the notes slide has a text frame. -/
structure PptxSlide where
  shapes : List PptxShape
  notes : Option String

/-- The accumulating locals of `extract_pptx`. -/
structure PptxState where
  text_blocks : List TextBlock
  tables : List Table
  images : List ImageArtifact
deriving Repr, DecidableEq

/-- The text-frame paragraph loop of one shape: each stripped nonempty
paragraph text joins `slide_texts` and becomes a `text` block. -/
def pptxParas (slide_num : Nat) (slide_texts : List String) (st : PptxState) :
    List String → List String × PptxState
  | [] => (slide_texts, st)
  | p :: rest =>
    let t := pyStrip p
    if t ≠ "" then
      pptxParas slide_num (slide_texts ++ [t])
        { st with text_blocks := st.text_blocks ++
            [{ text := t, page := slide_num, confidence := 95/100, type := .text }] }
        rest
    else pptxParas slide_num slide_texts st rest

/-- The `shape.has_text_frame` step of one PPTX shape. -/
def pptxShapeTextFrame (slide_num : Nat) (acc : List String × PptxState)
    (tf : Option (List String)) : List String × PptxState :=
  match tf with
  | some paras => pptxParas slide_num acc.1 acc.2 paras
  | none => acc

/-- The `shape.has_table` step of one PPTX shape: a Table entity plus, when
nonempty, the synthesized `[Table]` block of pipe-joined rows. -/
def pptxShapeTable (slide_num : Nat) (st : PptxState)
    (tab : Option (List (List String))) : PptxState :=
  match tab with
  | some rows =>
    let table_data := rows.map (fun row => row.map (fun c => pyStrip c))
    let tables := st.tables ++
      [{ rows := table_data, page := slide_num, confidence := 9/10 }]
    let table_text := joinSep "\n" (table_data.map (fun row => joinSep " | " row))
    let text_blocks :=
      if pyStrip table_text ≠ "" then
        st.text_blocks ++
          [{ text := "[Table]\n" ++ table_text, page := slide_num,
             confidence := 9/10, type := .table }]
      else st.text_blocks
    { st with tables := tables, text_blocks := text_blocks }
  | none => st

/-- The image step of one PPTX shape: the recognition fallback is invoked
only when the slide's own text so far is under 50 characters
(`len(' '.join(slide_texts)) < 50`); recognized text longer than 20
characters becomes an `image_ocr` block (confidence 0.7) and an image
record. -/
def pptxShapeImage (ocr : Nat → Option String) (slide_num : Nat)
    (slide_texts : List String) (st : PptxState) (img : Option Nat) : PptxState :=
  match img with
  | some imgId =>
    if (joinSep " " slide_texts).length < 50 then
      match ocr imgId with
      | some t =>
        if 20 < t.length then
          { st with
              text_blocks := st.text_blocks ++
                [{ text := t, page := slide_num, confidence := 7/10, type := .image_ocr }]
              images := st.images ++ [.ocrRecord (some slide_num) t] }
        else st
      | none => st
    else st
  | none => st

/-- Processing of one PPTX shape, in source order: text frame, table,
image. -/
def pptxDoShape (ocr : Nat → Option String) (slide_num : Nat)
    (acc : List String × PptxState) (shape : PptxShape) : List String × PptxState :=
  let acc1 := pptxShapeTextFrame slide_num acc shape.text_frame
  let st2 := pptxShapeTable slide_num acc1.2 shape.table
  let st3 := pptxShapeImage ocr slide_num acc1.1 st2 shape.image
  (acc1.1, st3)

/-- The shape loop of one slide. -/
def pptxDoShapes (ocr : Nat → Option String) (slide_num : Nat)
    (acc : List String × PptxState) : List PptxShape → List String × PptxState
  | [] => acc
  | s :: rest => pptxDoShapes ocr slide_num (pptxDoShape ocr slide_num acc s) rest

/-- The slide loop (`enumerate(prs.slides, 1)`): shapes, then the stripped
nonempty speaker notes as one `speaker_notes` block. -/
def pptxDoSlides (ocr : Nat → Option String) (slide_num : Nat)
    (st : PptxState) : List PptxSlide → PptxState
  | [] => st
  | slide :: rest =>
    let stA := (pptxDoShapes ocr slide_num ([], st) slide.shapes).2
    let stB :=
      match slide.notes with
      | some n =>
        let nt := pyStrip n
        if nt ≠ "" then
          { stA with text_blocks := stA.text_blocks ++
              [{ text := "[Speaker Notes]\n" ++ nt, page := slide_num,
                 confidence := 95/100, type := .speaker_notes }] }
        else stA
      | none => stA
    pptxDoSlides ocr (slide_num + 1) stB rest

/-- `extract_pptx(file_buffer, request_id)`: `Presentation(...)` parsing as
the `Except` input — its exception is re-raised (`raise` at line 495) —
then the slide loop; `raw_text` is the double-newline join of the blocks. -/
def extract_pptx (slidesE : Except String (List PptxSlide))
    (ocr : Nat → Option String) : Except String ExtractionResult :=
  match slidesE with
  | .error e => .error e
  | .ok slides =>
    let st := pptxDoSlides ocr 1 { text_blocks := [], tables := [], images := [] } slides
    .ok
      { method := "python_pptx"
        confidence := 95/100
        text_blocks := st.text_blocks
        tables := st.tables
        images := st.images
        page_count := slides.length
        raw_text := joinTexts st.text_blocks }

/-- A DOCX paragraph: its text and its style name. -/
structure DocxParagraph where
  text : String
  style_name : String

/-- A parsed DOCX package: paragraphs, tables (cell texts), and the
document part's relationships (`target_ref`, blob id). -/
structure DocxDocument where
  paragraphs : List DocxParagraph
  tables : List (List (List String))
  rels : List (String × Nat)

/-- The DOCX paragraph loop: stripped nonempty text becomes a block, of
type `heading` when the style name starts with `'Heading'`, else
`paragraph`; every block reports page 1. -/
def docxParas (blocks : List TextBlock) : List DocxParagraph → List TextBlock
  | [] => blocks
  | p :: rest =>
    let t := pyStrip p.text
    if t ≠ "" then
      let para_type :=
        if startsWithStr p.style_name "Heading" then BlockType.heading
        else BlockType.paragraph
      docxParas (blocks ++
        [{ text := t, page := 1, confidence := 95/100, type := para_type }]) rest
    else docxParas blocks rest

/-- The DOCX table loop: each table becomes a Table entity and, when its
pipe-joined text is nonempty after stripping, a synthesized `[Table]`
block. -/
def docxTables (acc : List Table × List TextBlock) :
    List (List (List String)) → List Table × List TextBlock
  | [] => acc
  | rows :: rest =>
    let (tables, blocks) := acc
    let table_data := rows.map (fun row => row.map (fun c => pyStrip c))
    let tables2 := tables ++ [{ rows := table_data, page := 1, confidence := 9/10 }]
    let table_text := joinSep "\n" (table_data.map (fun row => joinSep " | " row))
    let blocks2 :=
      if pyStrip table_text ≠ "" then
        blocks ++ [{ text := "[Table]\n" ++ table_text, page := 1,
                     confidence := 9/10, type := .table }]
      else blocks
    docxTables (tables2, blocks2) rest

/-- The DOCX image-relationship loop: every relationship whose
`target_ref` contains `"image"` is OCRed (no text-density gating);
recognized text longer than 20 characters becomes an `image_ocr` block
prefixed with `"[Image Text]\n"` plus a pageless image record. -/
def docxImages (ocr : Nat → Option String)
    (acc : List TextBlock × List ImageArtifact) :
    List (String × Nat) → List TextBlock × List ImageArtifact
  | [] => acc
  | (target_ref, imgId) :: rest =>
    let (blocks, images) := acc
    let acc2 :=
      if substrIn target_ref "image" then
        match ocr imgId with
        | some t =>
          if 20 < t.length then
            (blocks ++ [{ text := "[Image Text]\n" ++ t, page := 1,
                          confidence := 7/10, type := .image_ocr }],
             images ++ [.ocrRecord none t])
          else (blocks, images)
        | none => (blocks, images)
      else (blocks, images)
    docxImages ocr acc2 rest

/-- `extract_docx(file_buffer, request_id)`: `Document(...)` parsing as the
`Except` input — its exception is re-raised (`raise` at line 582) — then
paragraphs, tables, image relationships; `raw_text` is the double-newline
join of the blocks. -/
def extract_docx (docE : Except String DocxDocument)
    (ocr : Nat → Option String) : Except String ExtractionResult :=
  match docE with
  | .error e => .error e
  | .ok doc =>
    let blocks1 := docxParas [] doc.paragraphs
    let (tables, blocks2) := docxTables ([], blocks1) doc.tables
    let (blocks3, images) := docxImages ocr (blocks2, []) doc.rels
    .ok
      { method := "python_docx"
        confidence := 95/100
        text_blocks := blocks3
        tables := tables
        images := images
        page_count := 1
        raw_text := joinTexts blocks3 }

/-- Everything the `/extract` route's dispatch draws on for one request:
the PDF environment, the python-pptx and python-docx parse outcomes, the
decoded TXT content, and the recognition oracle shared by the PPTX/DOCX
extractors. -/
structure ExtractEnv where
  pdf : PdfEnv
  pptxSlides : Except String (List PptxSlide)
  docx : Except String DocxDocument
  txt : String
  ocr : Nat → Option String

/-- The `/extract` route's response, as the caller observes it: the 200
body's canonical model, the 400 `'Unsupported file type: ...'` rejection,
or the 500 `{'error': str(e), 'requestId': request_id}` produced by the
top-level exception handler. -/
inductive ExtractOutcome where
  | ok (canonical : CanonicalDocument)
  | badRequest (message : String)
  | serverErr (message : String) (request_id : String)
deriving Repr, DecidableEq

/-- The `/extract` route from file-type detection onward: detect, dispatch
to the matching extractor, build the canonical model; an extractor's raised
exception reaches the top-level handler and becomes the 500 response; an
unmatched type tag becomes the 400 response (before any extractor runs). -/
def extract_route (filename mimetype : String) (env : ExtractEnv)
    (file_size : Nat) (request_id timestamp : String) : ExtractOutcome :=
  let file_type := detect_file_type filename mimetype
  let dispatched : Option (Except String ExtractionResult) :=
    if file_type = "pdf" then some (.ok (extract_pdf env.pdf).result)
    else if file_type = "pptx" ∨ file_type = "ppt" then
      some (extract_pptx env.pptxSlides env.ocr)
    else if file_type = "docx" ∨ file_type = "doc" then
      some (extract_docx env.docx env.ocr)
    else if file_type = "txt" then some (.ok (extract_txt env.txt))
    else none
  match dispatched with
  | none => .badRequest ("Unsupported file type: " ++ file_type)
  | some (.error e) => .serverErr e request_id
  | some (.ok result) =>
    .ok (build_canonical_model result filename file_type file_size request_id timestamp)

/-! Concrete inputs used to instantiate the theorems below. -/

/-- A recognition oracle that never recognizes text. -/
def noOcr : Nat → Option String := fun _ => none

/-- The empty `ExtractionResult` that `extract_pdf` returns when every
stage failed (its initial local values). -/
def emptyPdfResult : ExtractionResult :=
  { method := "unknown", confidence := 0, text_blocks := [], tables := []
    images := [], page_count := 1, raw_text := "" }

/-- A PDF environment for a corrupt PDF: no Document AI processor
configured and `fitz.open` raising. -/
def corruptPdfEnv : PdfEnv :=
  { docai_processor_id := false
    docai := .error "unused"
    pages := .error "cannot open broken document: invalid pdf"
    ocr := noOcr }

/-- A request environment holding the corrupt PDF. -/
def corruptPdfRequest : ExtractEnv :=
  { pdf := corruptPdfEnv, pptxSlides := .error "unused", docx := .error "unused"
    txt := "", ocr := noOcr }

/-- A request environment with failing PPTX/DOCX parses (used where only
the dispatch behaviour matters). -/
def plainRequest : ExtractEnv :=
  { pdf := corruptPdfEnv, pptxSlides := .error "bad zip container"
    docx := .error "bad zip container", txt := "hello", ocr := noOcr }

/-- A Document AI response whose full text is `"a\nb"` with two paragraphs
anchored at `[0:1]` and `[2:3]`: the blocks read `"a"` and `"b"`, whose
double-newline join `"a\n\nb"` differs from the full text. -/
def docAITwoParagraphs : DocAIDocument :=
  { pages :=
      [{ page_number := 1
         paragraphs := [⟨⟨[⟨0, 1⟩], 9/10⟩⟩, ⟨⟨[⟨2, 3⟩], 9/10⟩⟩]
         tables := [] }]
    text := "a\nb" }

/-- A Document AI response with no paragraphs, so `extract_pdf_with_document_ai`
reports the default confidence `0.9` (above the `0.7` gate). -/
def docAINoParagraphs : DocAIDocument :=
  { pages := [], text := "Structured extraction full text" }

/-- A PDF environment in which the configured Document AI call succeeds
with confidence `0.9`. -/
def docAIPdfEnv : PdfEnv :=
  { docai_processor_id := true, docai := .ok docAINoParagraphs
    pages := .error "unused", ocr := noOcr }

/-- A recognized-text string of exactly 20 characters. -/
def ocrText20 : String := "12345678901234567890"

/-- A PPTX slide holding one picture shape (blob id `imgId`) and nothing
else. -/
def onePictureSlideOf (imgId : Nat) : PptxSlide :=
  { shapes := [{ text_frame := none, table := none, image := some imgId }]
    notes := none }

/-- A PPTX slide holding one picture shape and nothing else. -/
def onePictureSlide : PptxSlide := onePictureSlideOf 0

/-- A DOCX package holding a single image relationship (blob id `imgId`)
and nothing else. -/
def oneImageDocx (imgId : Nat) : DocxDocument :=
  { paragraphs := [], tables := [], rels := [("media/image1.png", imgId)] }

/-- The PPTX extraction result consisting of exactly one `image_ocr`
block for recognized text `t` on slide 1, plus its image record. -/
def pptxOneImageOcrResult (t : String) : ExtractionResult :=
  { method := "python_pptx"
    confidence := 95/100
    text_blocks := [{ text := t, page := 1, confidence := 7/10, type := .image_ocr }]
    tables := []
    images := [.ocrRecord (some 1) t]
    page_count := 1
    raw_text := t }

/-- The DOCX extraction result consisting of exactly one marker-prefixed
`image_ocr` block for recognized text `t`, plus its image record. -/
def docxOneImageOcrResult (t : String) : ExtractionResult :=
  { method := "python_docx"
    confidence := 95/100
    text_blocks := [{ text := "[Image Text]\n" ++ t, page := 1
                      confidence := 7/10, type := .image_ocr }]
    tables := []
    images := [.ocrRecord none t]
    page_count := 1
    raw_text := "[Image Text]\n" ++ t }

/-- The empty PPTX extraction result (no blocks, tables or images). -/
def pptxEmptyResult (page_count : Nat) : ExtractionResult :=
  { method := "python_pptx", confidence := 95/100, text_blocks := []
    tables := [], images := [], page_count := page_count, raw_text := "" }

/-- The empty DOCX extraction result (no blocks, tables or images). -/
def docxEmptyResult : ExtractionResult :=
  { method := "python_docx", confidence := 95/100, text_blocks := []
    tables := [], images := [], page_count := 1, raw_text := "" }

/-- An OCR environment whose Vision tier raises and whose enabled Vertex
tier recognizes `"Invoice #123"`; the OpenAI tier is configured with a
sentinel answer so that calling it would be observable. -/
def invoiceOcrEnv : OcrEnv :=
  { vision := .error "simulated network error"
    vertex_enabled := true
    vertex := .ok (some "Invoice #123")
    openai_key := true
    openai := .ok (some "sentinel: second generative tier") }

/-- An OCR environment with every tier failing or disabled. -/
def allFailOcrEnv : OcrEnv :=
  { vision := .error "simulated network error"
    vertex_enabled := false
    vertex := .error "unused"
    openai_key := false
    openai := .error "unused" }

/-- An empty PDF page (no text layer, no embedded images) whose thumbnail
renders successfully. -/
def blankPdfPage : PdfPage :=
  { page_text := "", images := [], thumb := some "data:image/jpeg;base64,AAA"
    fullpage_img := 0 }

/-- The initial state of the PyMuPDF page loop. -/
def pdfInitState : PdfLocalState :=
  { text_blocks := [], images := [], thumbnails_added := 0, ocr_calls := 0 }

/-- Soundness predicate for PPTX `image_ocr` blocks: such a block always
has confidence `0.7` and more than 20 characters of text. -/
def imageOcrSound (blocks : List TextBlock) : Prop :=
  ∀ b ∈ blocks, b.type = .image_ocr → b.confidence = 7/10 ∧ 20 < b.text.length

/-- Soundness predicate for DOCX `image_ocr` blocks: confidence `0.7` and
the `"[Image Text]\n"` marker prefixed to recognized text of more than 20
characters. -/
def imageOcrSoundDocx (blocks : List TextBlock) : Prop :=
  ∀ b ∈ blocks, b.type = .image_ocr →
    b.confidence = 7/10 ∧ ∃ t, b.text = "[Image Text]\n" ++ t ∧ 20 < t.length

/-! Theorems. -/

/-- The confidence gate's threshold comparison on the default Document AI
confidence, proved once and shared. -/
theorem gate_le_default : (7 : ℚ)/10 ≤ 9/10 := by norm_num

/-- C1: for every ExtractionResult and file metadata given to the Canonical
Model Builder, the returned CanonicalDocument satisfies
`stats.total_chars = length(content.full_text)` and
`stats.total_blocks = length(content.text_blocks)`. -/
theorem C1_canonical_stats (result : ExtractionResult) (filename file_type : String)
    (file_size : Nat) (request_id timestamp : String) :
    (build_canonical_model result filename file_type file_size request_id
        timestamp).stats.total_chars
      = (build_canonical_model result filename file_type file_size request_id
          timestamp).content.full_text.length ∧
    (build_canonical_model result filename file_type file_size request_id
        timestamp).stats.total_blocks
      = (build_canonical_model result filename file_type file_size request_id
          timestamp).content.text_blocks.length :=
  ⟨rfl, rfl⟩

/-- C9: two runs of the Canonical Model Builder on the same
ExtractionResult, filename, file type, file size and request id agree on
every field except `extraction.timestamp`, which is exactly the clock
argument; the builder is a total function, so it never fails on well-formed
input. -/
theorem C9_builder_deterministic (result : ExtractionResult)
    (filename file_type : String) (file_size : Nat) (request_id ts1 ts2 : String) :
    (build_canonical_model result filename file_type file_size request_id ts1).id
      = (build_canonical_model result filename file_type file_size request_id ts2).id ∧
    (build_canonical_model result filename file_type file_size request_id ts1).filename
      = (build_canonical_model result filename file_type file_size request_id ts2).filename ∧
    (build_canonical_model result filename file_type file_size request_id ts1).file_type
      = (build_canonical_model result filename file_type file_size request_id ts2).file_type ∧
    (build_canonical_model result filename file_type file_size request_id ts1).file_size
      = (build_canonical_model result filename file_type file_size request_id ts2).file_size ∧
    (build_canonical_model result filename file_type file_size request_id ts1).extraction.method
      = (build_canonical_model result filename file_type file_size request_id ts2).extraction.method ∧
    (build_canonical_model result filename file_type file_size request_id ts1).extraction.confidence
      = (build_canonical_model result filename file_type file_size request_id ts2).extraction.confidence ∧
    (build_canonical_model result filename file_type file_size request_id ts1).doc_structure
      = (build_canonical_model result filename file_type file_size request_id ts2).doc_structure ∧
    (build_canonical_model result filename file_type file_size request_id ts1).content
      = (build_canonical_model result filename file_type file_size request_id ts2).content ∧
    (build_canonical_model result filename file_type file_size request_id ts1).stats
      = (build_canonical_model result filename file_type file_size request_id ts2).stats ∧
    (build_canonical_model result filename file_type file_size request_id ts1).extraction.timestamp
      = ts1 :=
  ⟨rfl, rfl, rfl, rfl, rfl, rfl, rfl, rfl, rfl, rfl⟩

/-- C3 counterexample: the filename `slides.pptx` has the recognized
extension `pptx`, yet with MIME type `application/pdf` the detector returns
`pdf`, not `pptx` — extension does not take precedence over the MIME type
of a higher-priority format. -/
theorem C3_counterexample :
    extOf "slides.pptx" = "pptx" ∧
    detect_file_type "slides.pptx" "application/pdf" = "pdf" ∧
    detect_file_type "slides.pptx" "application/pdf" ≠ "pptx" := by
  refine ⟨rfl, rfl, ?_⟩
  decide

/-- C3 amended: the detector checks formats in the fixed priority order
(pdf, pptx/ppt, docx/doc, txt, image-extensions), but at each level the
extension test and the MIME substring test are combined with `or`; a
recognized extension therefore yields its format tag exactly when no
strictly higher-priority format's MIME substring matches (in particular
whenever the MIME type matches nothing). -/
theorem C3_detect_priority (filename mimetype : String) :
    (extOf filename = "pdf" → detect_file_type filename mimetype = "pdf") ∧
    (extOf filename = "pptx" ∨ extOf filename = "ppt" →
      mimePdf mimetype = false → detect_file_type filename mimetype = "pptx") ∧
    (extOf filename = "docx" ∨ extOf filename = "doc" →
      mimePdf mimetype = false → mimePptx mimetype = false →
      detect_file_type filename mimetype = "docx") ∧
    (extOf filename = "txt" →
      mimePdf mimetype = false → mimePptx mimetype = false →
      mimeDocx mimetype = false → detect_file_type filename mimetype = "txt") ∧
    (extOf filename ∈ (["png", "jpg", "jpeg", "webp", "gif"] : List String) →
      mimePdf mimetype = false → mimePptx mimetype = false →
      mimeDocx mimetype = false → mimeTxt mimetype = false →
      detect_file_type filename mimetype = "image") := by
  refine ⟨?_, ?_, ?_, ?_, ?_⟩
  · intro h
    simp [detect_file_type, h]
  · rintro (h | h) hm <;> simp [detect_file_type, h, hm]
  · rintro (h | h) hm1 hm2 <;> simp [detect_file_type, h, hm1, hm2]
  · intro h hm1 hm2 hm3
    simp [detect_file_type, h, hm1, hm2, hm3]
  · intro h hm1 hm2 hm3 hm4
    simp only [List.mem_cons, List.not_mem_nil, or_false] at h
    rcases h with h | h | h | h | h <;>
      simp_all [detect_file_type]

/-- C3 witness: a `deck.pptx` upload with a PowerPoint MIME type is
detected as `pptx` via the amended precedence rule. -/
theorem C3_detect_priority_witness :
    detect_file_type "deck.pptx" "application/vnd.ms-powerpoint" = "pptx" :=
  (C3_detect_priority "deck.pptx" "application/vnd.ms-powerpoint").2.1
    (Or.inl (by decide)) (by decide)

/-- C10: a request whose detected tag is `image` — a tag the detector does
return — or any other tag outside pdf/pptx/ppt/docx/doc/txt is rejected
with the 400 `Unsupported file type` response; no extractor runs and no
canonical model is produced. -/
theorem C10_unsupported_rejected (filename mimetype : String) (env : ExtractEnv)
    (file_size : Nat) (request_id timestamp : String)
    (h : detect_file_type filename mimetype ∉
      (["pdf", "pptx", "ppt", "docx", "doc", "txt"] : List String)) :
    extract_route filename mimetype env file_size request_id timestamp
      = .badRequest ("Unsupported file type: " ++ detect_file_type filename mimetype) ∧
    detect_file_type "photo.png" "" = "image" := by
  simp only [List.mem_cons, List.not_mem_nil, or_false, not_or] at h
  obtain ⟨h1, h2, h3, h4, h5, h6⟩ := h
  refine ⟨?_, rfl⟩
  simp [extract_route, h1, h2, h3, h4, h5, h6]

/-- C10 witness: a PNG upload is detected as `image` and rejected with the
400 response before any extractor runs. -/
theorem C10_unsupported_rejected_witness :
    extract_route "photo.png" "" plainRequest 5 "req-img" "t0"
      = .badRequest "Unsupported file type: image" ∧
    detect_file_type "photo.png" "" = "image" :=
  C10_unsupported_rejected "photo.png" "" plainRequest 5 "req-img" "t0" (by decide)

/-- C2 counterexample: a corrupt PDF (no Document AI processor configured,
`fitz.open` raising) does NOT produce an extraction-failed error — the
route answers 200 with a canonical model built from the empty extraction
result (`method` `'unknown'`, zero blocks), because `extract_pdf` absorbs
its own top-level failure. -/
theorem C2_counterexample :
    extract_route "broken.pdf" "" corruptPdfRequest 10 "req1" "t0"
      = .ok (build_canonical_model emptyPdfResult "broken.pdf" "pdf" 10 "req1" "t0") ∧
    (build_canonical_model emptyPdfResult "broken.pdf" "pdf" 10 "req1" "t0").stats.total_blocks
      = 0 :=
  ⟨rfl, rfl⟩

/-- C2 amended: a top-level extractor failure is surfaced as the 500
error response carrying the request id and the original message for the
PPTX and DOCX extractors (and the TXT extractor cannot fail), but NOT for
PDF: when the Document AI stage does not conclude and the local PDF parse
fails at the top, `extract_pdf` absorbs the failure and the route returns a
canonical model built from the empty extraction result. -/
theorem C2_extractor_failure (filename mimetype : String) (env : ExtractEnv)
    (file_size : Nat) (request_id timestamp msg : String) :
    (detect_file_type filename mimetype = "pptx" → env.pptxSlides = .error msg →
      extract_route filename mimetype env file_size request_id timestamp
        = .serverErr msg request_id) ∧
    (detect_file_type filename mimetype = "docx" → env.docx = .error msg →
      extract_route filename mimetype env file_size request_id timestamp
        = .serverErr msg request_id) ∧
    (detect_file_type filename mimetype = "txt" →
      extract_route filename mimetype env file_size request_id timestamp
        = .ok (build_canonical_model (extract_txt env.txt) filename "txt"
            file_size request_id timestamp)) ∧
    (detect_file_type filename mimetype = "pdf" → docaiAttempt env.pdf = none →
      env.pdf.pages = .error msg →
      extract_route filename mimetype env file_size request_id timestamp
        = .ok (build_canonical_model emptyPdfResult filename "pdf"
            file_size request_id timestamp)) := by
  refine ⟨?_, ?_, ?_, ?_⟩
  · intro h1 h2
    simp [extract_route, h1, h2, extract_pptx]
  · intro h1 h2
    simp [extract_route, h1, h2, extract_docx]
  · intro h1
    simp [extract_route, h1]
  · intro h1 h2 h3
    simp [extract_route, h1, extract_pdf, h2, pdfLocalExtract, h3, emptyPdfResult]

/-- C2 witness: a PPTX whose container parse raises `'bad zip container'`
is answered with the 500 error carrying that message and the request id. -/
theorem C2_extractor_failure_witness :
    extract_route "deck.pptx" "" plainRequest 9 "req2" "t0"
      = .serverErr "bad zip container" "req2" :=
  (C2_extractor_failure "deck.pptx" "" plainRequest 9 "req2" "t0"
    "bad zip container").1 rfl rfl

/-- C4: when a Document AI processor is configured and the structured
extraction returns with confidence at least 0.70, `extract_pdf` returns that
result unchanged and immediately: no recognition-fallback call is made
(call count 0), no local-parse block or thumbnail can appear (the result is
the Document AI result verbatim), and its method tag is `document_ai`. -/
theorem C4_docai_short_circuit (env : PdfEnv) (d : DocAIDocument)
    (hcfg : env.docai_processor_id = true) (hok : env.docai = .ok d)
    (hconf : (7 : ℚ)/10 ≤ (extract_pdf_with_document_ai d).confidence) :
    extract_pdf env = { result := extract_pdf_with_document_ai d, ocr_calls := 0 } ∧
    (extract_pdf env).result.method = "document_ai" ∧
    (extract_pdf env).ocr_calls = 0 := by
  have hstep : docaiAttempt env = some (extract_pdf_with_document_ai d) := by
    simp [docaiAttempt, hcfg, hok, hconf]
  refine ⟨by simp [extract_pdf, hstep], ?_, by simp [extract_pdf, hstep]⟩
  simp only [extract_pdf, hstep]
  rfl

/-- C4 witness: a configured Document AI response with confidence 0.9
short-circuits `extract_pdf` with zero recognition calls and the
`document_ai` method tag. -/
theorem C4_docai_short_circuit_witness :
    extract_pdf docAIPdfEnv
      = { result := extract_pdf_with_document_ai docAINoParagraphs, ocr_calls := 0 } ∧
    (extract_pdf docAIPdfEnv).result.method = "document_ai" ∧
    (extract_pdf docAIPdfEnv).ocr_calls = 0 :=
  C4_docai_short_circuit docAIPdfEnv docAINoParagraphs rfl rfl gate_le_default

/-- C6: the recognition cascade invokes the Vertex tier only when Vision
failed or returned no annotation; it invokes the OpenAI tier only when, in
addition, the Vertex tier was disabled, raised, or produced no (nonempty)
text; if Vision fails and the enabled Vertex tier returns nonempty text,
that text is the result and the OpenAI tier is never called; and with every
tier failing or disabled the result is `none` — a normal return, since
`ocr_image` is a total function that absorbs each tier's failure. -/
theorem C6_ocr_cascade (env : OcrEnv) (t ve : String) :
    ((ocr_image env).vertex_called = true →
      env.vision = .ok [] ∨ ∃ e, env.vision = .error e) ∧
    ((ocr_image env).openai_called = true →
      (env.vision = .ok [] ∨ ∃ e, env.vision = .error e) ∧
      (env.vertex_enabled = false ∨ (∃ e, env.vertex = .error e) ∨
        env.vertex = .ok none ∨ env.vertex = .ok (some ""))) ∧
    (env.vision = .error ve → env.vertex_enabled = true →
      env.vertex = .ok (some t) → t ≠ "" →
      (ocr_image env).result = some t ∧ (ocr_image env).openai_called = false) ∧
    (env.vision = .error ve → env.vertex_enabled = false → env.openai_key = false →
      (ocr_image env).result = none) := by
  obtain ⟨vision, venabled, vertex, okey, openai⟩ := env
  refine ⟨?_, ?_, ?_, ?_⟩
  · rcases vision with e | l
    · intro _
      exact Or.inr ⟨e, rfl⟩
    · rcases l with _ | ⟨d, rest⟩
      · intro _
        exact Or.inl rfl
      · intro hcalled
        simp [ocr_image] at hcalled
  · rcases vision with e | l
    · intro hcalled
      refine ⟨Or.inr ⟨e, rfl⟩, ?_⟩
      rcases venabled with _ | _
      · exact Or.inl rfl
      · rcases vertex with e2 | r
        · exact Or.inr (Or.inl ⟨e2, rfl⟩)
        · rcases r with _ | t2
          · exact Or.inr (Or.inr (Or.inl rfl))
          · by_cases ht : t2 = ""
            · subst ht
              exact Or.inr (Or.inr (Or.inr rfl))
            · simp [ocr_image, geminiThenOpenai, ht] at hcalled
    · rcases l with _ | ⟨d, rest⟩
      · intro hcalled
        refine ⟨Or.inl rfl, ?_⟩
        rcases venabled with _ | _
        · exact Or.inl rfl
        · rcases vertex with e2 | r
          · exact Or.inr (Or.inl ⟨e2, rfl⟩)
          · rcases r with _ | t2
            · exact Or.inr (Or.inr (Or.inl rfl))
            · by_cases ht : t2 = ""
              · subst ht
                exact Or.inr (Or.inr (Or.inr rfl))
              · simp [ocr_image, geminiThenOpenai, ht] at hcalled
      · intro hcalled
        simp [ocr_image] at hcalled
  · intro h1 h2 h3 h4
    cases h1
    cases h2
    cases h3
    constructor <;> simp [ocr_image, geminiThenOpenai, h4]
  · intro h1 h2 h3
    cases h1
    cases h2
    cases h3
    simp [ocr_image, geminiThenOpenai, openaiStage]

/-- C5 counterexample: the structured-extraction (Document AI) path sets
`raw_text` to the service's full document text, not to the blocks' join:
on a document whose text is `"a\nb"` with paragraphs `"a"` and `"b"`,
`raw_text` is `"a\nb"` while the double-newline join of the blocks is
`"a\n\nb"`. -/
theorem C5_counterexample :
    (extract_pdf_with_document_ai docAITwoParagraphs).raw_text = "a\nb" ∧
    joinTexts (extract_pdf_with_document_ai docAITwoParagraphs).text_blocks = "a\n\nb" ∧
    (extract_pdf_with_document_ai docAITwoParagraphs).raw_text
      ≠ joinTexts (extract_pdf_with_document_ai docAITwoParagraphs).text_blocks := by
  refine ⟨rfl, rfl, ?_⟩
  decide

/-- C5 amended: `raw_text` equals the blocks' text joined by double
newlines for the PPTX, DOCX and TXT extractors and for the local (PyMuPDF)
PDF path — i.e. whenever the Document AI stage does not conclude — but the
Document AI extractor's `raw_text` is the service's own full text, which
need not equal the joined blocks. -/
theorem C5_raw_text_derived :
    (∀ slidesE ocr res, extract_pptx slidesE ocr = .ok res →
      res.raw_text = joinTexts res.text_blocks) ∧
    (∀ docE ocr res, extract_docx docE ocr = .ok res →
      res.raw_text = joinTexts res.text_blocks) ∧
    (∀ text, (extract_txt text).raw_text = joinTexts (extract_txt text).text_blocks) ∧
    (∀ env, docaiAttempt env = none →
      (extract_pdf env).result.raw_text
        = joinTexts (extract_pdf env).result.text_blocks) := by
  refine ⟨?_, ?_, ?_, ?_⟩
  · intro slidesE ocr res h
    rcases slidesE with e | slides
    · simp [extract_pptx] at h
    · simp only [extract_pptx, Except.ok.injEq] at h
      subst h
      rfl
  · intro docE ocr res h
    rcases docE with e | doc
    · simp [extract_docx] at h
    · simp only [extract_docx, Except.ok.injEq] at h
      subst h
      rfl
  · intro text
    rfl
  · intro env h
    simp only [extract_pdf, h]
    rcases hp : env.pages with e | pages
    · simp [pdfLocalExtract, hp, joinTexts, joinSep]
    · simp only [pdfLocalExtract, hp]
      split <;> rfl

/-- C5 witness: on a TXT input the single block's text is exactly
`raw_text`; on a PPTX parse failure nothing is produced, and on the empty
slide deck the join of zero blocks is the empty `raw_text`. -/
theorem C5_raw_text_derived_witness :
    (extract_txt "hello world").raw_text
      = joinTexts (extract_txt "hello world").text_blocks ∧
    (extract_pdf corruptPdfEnv).result.raw_text
      = joinTexts (extract_pdf corruptPdfEnv).result.text_blocks :=
  ⟨C5_raw_text_derived.2.2.1 "hello world",
   C5_raw_text_derived.2.2.2 corruptPdfEnv rfl⟩

/-- The empty block list is `imageOcrSound`. -/
theorem imageOcrSound_nil : imageOcrSound [] := by
  intro b hb
  simp at hb

/-- `imageOcrSound` is closed under append. -/
theorem imageOcrSound_append {xs ys : List TextBlock}
    (hx : imageOcrSound xs) (hy : imageOcrSound ys) : imageOcrSound (xs ++ ys) := by
  intro b hb ht
  rcases List.mem_append.mp hb with h | h
  · exact hx b h ht
  · exact hy b h ht

/-- A single block is `imageOcrSound` when it satisfies the condition. -/
theorem imageOcrSound_singleton {b : TextBlock}
    (h : b.type = .image_ocr → b.confidence = 7/10 ∧ 20 < b.text.length) :
    imageOcrSound [b] := by
  intro c hc ht
  rw [List.mem_singleton] at hc
  subst hc
  exact h ht

/-- The PPTX text-frame loop only appends `text` blocks, preserving
`imageOcrSound`. -/
theorem pptxParas_sound (slide_num : Nat) : ∀ (paras : List String)
    (sts : List String) (st : PptxState), imageOcrSound st.text_blocks →
    imageOcrSound (pptxParas slide_num sts st paras).2.text_blocks := by
  intro paras
  induction paras with
  | nil => intro sts st h; exact h
  | cons p rest ih =>
    intro sts st h
    simp only [pptxParas]
    split
    · exact ih _ _ (imageOcrSound_append h (imageOcrSound_singleton (by simp)))
    · exact ih _ _ h

/-- The PPTX table step only appends `table` blocks, preserving
`imageOcrSound`. -/
theorem pptxShapeTable_sound (slide_num : Nat) (st : PptxState)
    (tab : Option (List (List String))) (h : imageOcrSound st.text_blocks) :
    imageOcrSound (pptxShapeTable slide_num st tab).text_blocks := by
  rcases tab with _ | rows
  · exact h
  · simp only [pptxShapeTable]
    split
    · exact imageOcrSound_append h (imageOcrSound_singleton (by simp))
    · exact h

/-- The PPTX image step only appends an `image_ocr` block whose text
passed the strict `len > 20` gate, preserving `imageOcrSound`. -/
theorem pptxShapeImage_sound (ocr : Nat → Option String) (slide_num : Nat)
    (slide_texts : List String) (st : PptxState) (img : Option Nat)
    (h : imageOcrSound st.text_blocks) :
    imageOcrSound (pptxShapeImage ocr slide_num slide_texts st img).text_blocks := by
  rcases img with _ | imgId
  · exact h
  · simp only [pptxShapeImage]
    split
    · rcases hocr : ocr imgId with _ | t
      · simp only [hocr]; exact h
      · simp only [hocr]
        split
        · next hlen =>
          exact imageOcrSound_append h (imageOcrSound_singleton (fun _ => ⟨rfl, hlen⟩))
        · exact h
    · exact h

/-- One PPTX shape preserves `imageOcrSound`. -/
theorem pptxDoShape_sound (ocr : Nat → Option String) (slide_num : Nat)
    (acc : List String × PptxState) (s : PptxShape)
    (h : imageOcrSound acc.2.text_blocks) :
    imageOcrSound (pptxDoShape ocr slide_num acc s).2.text_blocks := by
  simp only [pptxDoShape]
  exact pptxShapeImage_sound ocr slide_num _ _ s.image
    (pptxShapeTable_sound slide_num _ s.table
      (by
        rcases htf : s.text_frame with _ | paras
        · simpa [pptxShapeTextFrame, htf] using h
        · simpa [pptxShapeTextFrame, htf] using
            pptxParas_sound slide_num paras acc.1 acc.2 h))

/-- The PPTX shape loop preserves `imageOcrSound`. -/
theorem pptxDoShapes_sound (ocr : Nat → Option String) (slide_num : Nat) :
    ∀ (shapes : List PptxShape) (acc : List String × PptxState),
    imageOcrSound acc.2.text_blocks →
    imageOcrSound (pptxDoShapes ocr slide_num acc shapes).2.text_blocks := by
  intro shapes
  induction shapes with
  | nil => intro acc h; exact h
  | cons s rest ih =>
    intro acc h
    exact ih _ (pptxDoShape_sound ocr slide_num acc s h)

/-- The PPTX slide loop (shapes plus speaker notes) preserves
`imageOcrSound`. -/
theorem pptxDoSlides_sound (ocr : Nat → Option String) :
    ∀ (slides : List PptxSlide) (slide_num : Nat) (st : PptxState),
    imageOcrSound st.text_blocks →
    imageOcrSound (pptxDoSlides ocr slide_num st slides).text_blocks := by
  intro slides
  induction slides with
  | nil => intro n st h; exact h
  | cons slide rest ih =>
    intro n st h
    simp only [pptxDoSlides]
    apply ih
    have hA := pptxDoShapes_sound ocr n slide.shapes ([], st) h
    rcases hn : slide.notes with _ | notes
    · exact hA
    · simp only
      split
      · exact imageOcrSound_append hA (imageOcrSound_singleton (by simp))
      · exact hA

/-- The empty block list is `imageOcrSoundDocx`. -/
theorem imageOcrSoundDocx_nil : imageOcrSoundDocx [] := by
  intro b hb
  simp at hb

/-- `imageOcrSoundDocx` is closed under append. -/
theorem imageOcrSoundDocx_append {xs ys : List TextBlock}
    (hx : imageOcrSoundDocx xs) (hy : imageOcrSoundDocx ys) :
    imageOcrSoundDocx (xs ++ ys) := by
  intro b hb ht
  rcases List.mem_append.mp hb with h | h
  · exact hx b h ht
  · exact hy b h ht

/-- A single block is `imageOcrSoundDocx` when it satisfies the
condition. -/
theorem imageOcrSoundDocx_singleton {b : TextBlock}
    (h : b.type = .image_ocr →
      b.confidence = 7/10 ∧ ∃ t, b.text = "[Image Text]\n" ++ t ∧ 20 < t.length) :
    imageOcrSoundDocx [b] := by
  intro c hc ht
  rw [List.mem_singleton] at hc
  subst hc
  exact h ht

/-- The DOCX paragraph loop only appends `heading`/`paragraph` blocks,
preserving `imageOcrSoundDocx`. -/
theorem docxParas_sound : ∀ (paras : List DocxParagraph)
    (blocks : List TextBlock), imageOcrSoundDocx blocks →
    imageOcrSoundDocx (docxParas blocks paras) := by
  intro paras
  induction paras with
  | nil => intro blocks h; exact h
  | cons p rest ih =>
    intro blocks h
    simp only [docxParas]
    split
    · refine ih _ (imageOcrSoundDocx_append h (imageOcrSoundDocx_singleton ?_))
      split <;> simp
    · exact ih _ h

/-- The DOCX table loop only appends `table` blocks, preserving
`imageOcrSoundDocx`. -/
theorem docxTables_sound : ∀ (ts : List (List (List String)))
    (acc : List Table × List TextBlock), imageOcrSoundDocx acc.2 →
    imageOcrSoundDocx (docxTables acc ts).2 := by
  intro ts
  induction ts with
  | nil => intro acc h; exact h
  | cons rows rest ih =>
    intro acc h
    simp only [docxTables]
    apply ih
    split
    · exact imageOcrSoundDocx_append h (imageOcrSoundDocx_singleton (by simp))
    · exact h

/-- The DOCX image loop only appends marker-prefixed `image_ocr` blocks
whose recognized text passed the strict `len > 20` gate, preserving
`imageOcrSoundDocx`. -/
theorem docxImages_sound (ocr : Nat → Option String) :
    ∀ (rels : List (String × Nat)) (acc : List TextBlock × List ImageArtifact),
    imageOcrSoundDocx acc.1 → imageOcrSoundDocx (docxImages ocr acc rels).1 := by
  intro rels
  induction rels with
  | nil => intro acc h; exact h
  | cons rel rest ih =>
    intro acc h
    obtain ⟨target_ref, imgId⟩ := rel
    simp only [docxImages]
    apply ih
    split
    · rcases hocr : ocr imgId with _ | t
      · simp only [hocr]; exact h
      · simp only [hocr]
        split
        · next hlen =>
          exact imageOcrSoundDocx_append h
            (imageOcrSoundDocx_singleton (fun _ => ⟨rfl, t, rfl, hlen⟩))
        · exact h
    · exact h

/-- C7 counterexample: recognized text of exactly 20 characters (so of
length ≥ 20) produces NO `image_ocr` block and no image record, in either
the PPTX or the DOCX extractor — the source gates on `len(ocr_text) > 20`,
strictly. -/
theorem C7_counterexample :
    ocrText20.length = 20 ∧
    extract_pptx (.ok [onePictureSlide]) (fun _ => some ocrText20)
      = .ok (pptxEmptyResult 1) ∧
    extract_docx (.ok (oneImageDocx 0)) (fun _ => some ocrText20)
      = .ok docxEmptyResult :=
  ⟨rfl, rfl, rfl⟩

/-- C7 amended: in the PPTX and DOCX extractors, recognized text of length
strictly greater than 20 characters (i.e. ≥ 21) is emitted as an
`image_ocr` block with confidence 0.7 plus an image record (with the
`[Image Text]` marker prefix in DOCX); recognized text of length ≤ 20
produces no block — every `image_ocr` block in any output arises this
way. -/
theorem C7_image_ocr_threshold :
    (∀ slidesE ocr res, extract_pptx slidesE ocr = .ok res →
      imageOcrSound res.text_blocks) ∧
    (∀ docE ocr res, extract_docx docE ocr = .ok res →
      imageOcrSoundDocx res.text_blocks) ∧
    (∀ (t : String) (imgId : Nat), 20 < t.length →
      extract_pptx (.ok [onePictureSlideOf imgId]) (fun _ => some t)
        = .ok (pptxOneImageOcrResult t)) ∧
    (∀ (t : String) (imgId : Nat), 20 < t.length →
      extract_docx (.ok (oneImageDocx imgId)) (fun _ => some t)
        = .ok (docxOneImageOcrResult t)) := by
  refine ⟨?_, ?_, ?_, ?_⟩
  · intro slidesE ocr res h
    rcases slidesE with e | slides
    · simp [extract_pptx] at h
    · simp only [extract_pptx, Except.ok.injEq] at h
      subst h
      exact pptxDoSlides_sound ocr slides 1 _ imageOcrSound_nil
  · intro docE ocr res h
    rcases docE with e | doc
    · simp [extract_docx] at h
    · simp only [extract_docx, Except.ok.injEq] at h
      subst h
      exact docxImages_sound ocr doc.rels _
        (docxTables_sound doc.tables _ (docxParas_sound doc.paragraphs [] imageOcrSoundDocx_nil))
  · intro t imgId h
    simp [extract_pptx, pptxDoSlides, pptxDoShapes, pptxDoShape, pptxShapeTextFrame,
      pptxShapeTable, pptxShapeImage, onePictureSlideOf, pptxOneImageOcrResult,
      joinSep, joinTexts, h]
  · intro t imgId h
    have hsub : substrIn "media/image1.png" "image" = true := by decide
    simp [extract_docx, docxParas, docxTables, docxImages, oneImageDocx,
      docxOneImageOcrResult, hsub, joinTexts, joinSep, h]

/-- C7 witness: a 21-character recognized text is emitted as an
`image_ocr` block with confidence 0.7 and an image record in the PPTX
extractor. -/
theorem C7_image_ocr_threshold_witness :
    extract_pptx (.ok [onePictureSlideOf 0]) (fun _ => some "123456789012345678901")
      = .ok (pptxOneImageOcrResult "123456789012345678901") :=
  C7_image_ocr_threshold.2.2.1 "123456789012345678901" 0 (by decide)

/-- The per-image OCR loop appends only text blocks: the `images` list and
the thumbnail counter are untouched. -/
theorem pdfPageImagesOcr_images (ocr : Nat → Option String) (pageNum : Nat) :
    ∀ (imgs : List PdfImage) (st : PdfLocalState),
    (pdfPageImagesOcr ocr pageNum st imgs).images = st.images ∧
    (pdfPageImagesOcr ocr pageNum st imgs).thumbnails_added = st.thumbnails_added := by
  intro imgs
  induction imgs with
  | nil => intro st; exact ⟨rfl, rfl⟩
  | cons img rest ih =>
    intro st
    simp only [pdfPageImagesOcr]
    split
    · rcases hocr : ocr img.data with _ | t
      · simp only [hocr]
        exact ih _
      · simp only [hocr]
        split
        · exact ih _
        · exact ih _
    · exact ih _

/-- The text-layer step leaves `images` and the thumbnail counter
untouched. -/
theorem pdfPageTextStep_images (st : PdfLocalState) (pageNum : Nat) (page : PdfPage) :
    (pdfPageTextStep st pageNum page).images = st.images ∧
    (pdfPageTextStep st pageNum page).thumbnails_added = st.thumbnails_added := by
  simp only [pdfPageTextStep]
  split
  · exact ⟨rfl, rfl⟩
  · exact ⟨rfl, rfl⟩

/-- The sparse-text OCR step leaves `images` and the thumbnail counter
untouched. -/
theorem pdfPageOcrStep_images (ocr : Nat → Option String) (st : PdfLocalState)
    (pageNum : Nat) (page : PdfPage) :
    (pdfPageOcrStep ocr st pageNum page).images = st.images ∧
    (pdfPageOcrStep ocr st pageNum page).thumbnails_added = st.thumbnails_added := by
  simp only [pdfPageOcrStep]
  split
  · exact pdfPageImagesOcr_images ocr pageNum page.images st
  · exact ⟨rfl, rfl⟩

/-- The thumbnail step: it preserves `images.length = thumbnails_added`
and the `≤ maxThumbs` bound, never touches `text_blocks`, and changes
`images` only when no accumulated block of this page has at least 20
characters of stripped text. -/
theorem pdfPageThumbStep_spec (maxThumbs : Nat) (st : PdfLocalState)
    (pageNum : Nat) (page : PdfPage) :
    (pdfPageThumbStep maxThumbs st pageNum page).text_blocks = st.text_blocks ∧
    (st.images.length = st.thumbnails_added → st.thumbnails_added ≤ maxThumbs →
      (pdfPageThumbStep maxThumbs st pageNum page).images.length
          = (pdfPageThumbStep maxThumbs st pageNum page).thumbnails_added ∧
      (pdfPageThumbStep maxThumbs st pageNum page).thumbnails_added ≤ maxThumbs) ∧
    ((pdfPageThumbStep maxThumbs st pageNum page).images ≠ st.images →
      pageHasText st.text_blocks pageNum = false) := by
  simp only [pdfPageThumbStep]
  split
  · next hlt =>
    split
    · exact ⟨rfl, fun h1 h2 => ⟨h1, h2⟩, fun h => absurd rfl h⟩
    · next hno =>
      rcases page.thumb with _ | data_url
      · exact ⟨rfl, fun h1 h2 => ⟨h1, h2⟩, fun h => absurd rfl h⟩
      · refine ⟨rfl, fun h1 h2 => ⟨?_, hlt⟩, fun _ => ?_⟩
        · simp [h1]
        · exact Bool.not_eq_true _ ▸ (Bool.eq_false_iff.mpr hno)
  · exact ⟨rfl, fun h1 h2 => ⟨h1, h2⟩, fun h => absurd rfl h⟩

/-- One page of the PyMuPDF loop preserves the thumbnail-count
invariant. -/
theorem pdfProcessPage_inv (ocr : Nat → Option String) (maxThumbs : Nat)
    (st : PdfLocalState) (pageNum : Nat) (page : PdfPage)
    (h1 : st.images.length = st.thumbnails_added)
    (h2 : st.thumbnails_added ≤ maxThumbs) :
    (pdfProcessPage ocr maxThumbs st pageNum page).images.length
      = (pdfProcessPage ocr maxThumbs st pageNum page).thumbnails_added ∧
    (pdfProcessPage ocr maxThumbs st pageNum page).thumbnails_added ≤ maxThumbs := by
  have ht := pdfPageTextStep_images st pageNum page
  have ho := pdfPageOcrStep_images ocr (pdfPageTextStep st pageNum page) pageNum page
  have hs := pdfPageThumbStep_spec maxThumbs
    (pdfPageOcrStep ocr (pdfPageTextStep st pageNum page) pageNum page) pageNum page
  exact hs.2.1 (by rw [ho.1, ho.2, ht.1, ht.2, h1]) (by rw [ho.2, ht.2]; exact h2)

/-- The whole page loop preserves the thumbnail-count invariant. -/
theorem pdfPagesGo_inv (ocr : Nat → Option String) (maxThumbs : Nat) :
    ∀ (pages : List PdfPage) (st : PdfLocalState) (pageNum : Nat),
    st.images.length = st.thumbnails_added → st.thumbnails_added ≤ maxThumbs →
    (pdfPagesGo ocr maxThumbs st pageNum pages).images.length
      = (pdfPagesGo ocr maxThumbs st pageNum pages).thumbnails_added ∧
    (pdfPagesGo ocr maxThumbs st pageNum pages).thumbnails_added ≤ maxThumbs := by
  intro pages
  induction pages with
  | nil => intro st n h1 h2; exact ⟨h1, h2⟩
  | cons p rest ih =>
    intro st n h1 h2
    have hstep := pdfProcessPage_inv ocr maxThumbs st n p h1 h2
    exact ih _ _ hstep.1 hstep.2

/-- The full-page-OCR stage appends only text blocks: `images` is
untouched. -/
theorem pdfFullPageOcr_images (ocr : Nat → Option String) :
    ∀ (pages : List PdfPage) (st : PdfLocalState) (pageNum : Nat),
    (pdfFullPageOcr ocr st pageNum pages).images = st.images := by
  intro pages
  induction pages with
  | nil => intro st n; rfl
  | cons p rest ih =>
    intro st n
    simp only [pdfFullPageOcr]
    rcases hocr : ocr p.fullpage_img with _ | t
    · simp only [hocr]
      exact ih _ _
    · simp only [hocr]
      split
      · exact ih _ _
      · exact ih _ _

/-- A concluding Document AI attempt carries no images at all. -/
theorem docaiAttempt_images (env : PdfEnv) (r : ExtractionResult)
    (h : docaiAttempt env = some r) : r.images = [] := by
  simp only [docaiAttempt] at h
  split at h
  · rcases henv : env.docai with e | d
    · rw [henv] at h
      simp at h
    · rw [henv] at h
      simp only at h
      split at h
      · cases h
        rfl
      · simp at h
  · simp at h

/-- C8: a thumbnail is appended only for a page that, at that point of the
loop, still lacks any block with at least 20 characters of (stripped)
text, and the number of thumbnails per document never exceeds the
configured maximum `MAX_PAGE_THUMBNAILS` (default 25) — over any page
count, and hence in every `extract_pdf` result. -/
theorem C8_thumbnail_bound :
    MAX_PAGE_THUMBNAILS = 25 ∧
    (∀ env : PdfEnv,
      (extract_pdf env).result.images.length ≤ MAX_PAGE_THUMBNAILS) ∧
    (∀ (ocr : Nat → Option String) (maxThumbs : Nat) (st : PdfLocalState)
        (pageNum : Nat) (page : PdfPage),
      (pdfProcessPage ocr maxThumbs st pageNum page).images ≠
          (pdfPageOcrStep ocr (pdfPageTextStep st pageNum page) pageNum page).images →
      pageHasText (pdfProcessPage ocr maxThumbs st pageNum page).text_blocks
        pageNum = false) := by
  refine ⟨rfl, ?_, ?_⟩
  · intro env
    rcases hda : docaiAttempt env with _ | r
    · simp only [extract_pdf, hda]
      rcases hp : env.pages with e | pages
      · simp [pdfLocalExtract, hp]
      · simp only [pdfLocalExtract, hp]
        have hinv := pdfPagesGo_inv env.ocr MAX_PAGE_THUMBNAILS pages
          { text_blocks := [], images := [], thumbnails_added := 0, ocr_calls := 0 }
          1 rfl (Nat.zero_le _)
        split
        · next hlen =>
          rw [pdfFullPageOcr_images env.ocr pages _ 1]
          rw [hinv.1]
          exact hinv.2
        · rw [hinv.1]
          exact hinv.2
    · simp only [extract_pdf, hda]
      rw [docaiAttempt_images env r hda]
      simp
  · intro ocr maxThumbs st pageNum page h
    have hs := pdfPageThumbStep_spec maxThumbs
      (pdfPageOcrStep ocr (pdfPageTextStep st pageNum page) pageNum page) pageNum page
    have hchanged := hs.2.2 h
    calc pageHasText (pdfProcessPage ocr maxThumbs st pageNum page).text_blocks pageNum
        = pageHasText (pdfPageOcrStep ocr (pdfPageTextStep st pageNum page)
            pageNum page).text_blocks pageNum := by rw [pdfProcessPage, hs.1]
      _ = false := hchanged

/-- C8 witness: on a blank page the step appends a thumbnail, and indeed
no accumulated block of that page reaches 20 characters; the bound holds
on the corrupt-PDF environment. -/
theorem C8_thumbnail_bound_witness :
    pageHasText (pdfProcessPage noOcr MAX_PAGE_THUMBNAILS pdfInitState 1
      blankPdfPage).text_blocks 1 = false ∧
    (extract_pdf corruptPdfEnv).result.images.length ≤ MAX_PAGE_THUMBNAILS :=
  ⟨C8_thumbnail_bound.2.2 noOcr MAX_PAGE_THUMBNAILS pdfInitState 1 blankPdfPage
      (by decide),
   C8_thumbnail_bound.2.1 corruptPdfEnv⟩

/-- C6 witness: Vision raising on an image while the enabled Vertex tier
recognizes `"Invoice #123"` yields exactly that text, without calling the
OpenAI tier; and with every tier failing or disabled the cascade returns
`none`. -/
theorem C6_ocr_cascade_witness :
    ((ocr_image invoiceOcrEnv).result = some "Invoice #123" ∧
      (ocr_image invoiceOcrEnv).openai_called = false) ∧
    (ocr_image allFailOcrEnv).result = none := by
  refine ⟨?_, ?_⟩
  · exact (C6_ocr_cascade invoiceOcrEnv "Invoice #123"
      "simulated network error").2.2.1 rfl rfl rfl (by decide)
  · exact (C6_ocr_cascade allFailOcrEnv "" "simulated network error").2.2.2
      rfl rfl rfl

end DocIntel
